import Mathlib

/-!
Shallow embedding of the fffishing-rs prediction core
(src/ffxivfishing/src/eorzea_time.rs, weather.rs, fish.rs, lib.rs).

Eorzea times and durations are u64 counters of game-seconds in the source;
they are modelled as Nat (the source never subtracts below zero: Sub on
EorzeaTime saturates at 0, which Nat subtraction matches exactly).
-/

namespace FFF

/-- Unit sizes from eorzea_time.rs: 60 sec/minute, 60 min/bell, 24 bells/sun,
32 suns/moon, 12 moons/year. -/
def MINUTE_IN_ESEC : Nat := 60

def BELL_IN_ESEC : Nat := 60 * MINUTE_IN_ESEC

def SUN_IN_ESEC : Nat := 24 * BELL_IN_ESEC

def MOON_IN_ESEC : Nat := 32 * SUN_IN_ESEC

def YEAR_IN_ESEC : Nat := 12 * MOON_IN_ESEC

/-- EORZEA_WEATHER_PERIOD from eorzea_time.rs: 8 bells of game-seconds. -/
def EORZEA_WEATHER_PERIOD : Nat := BELL_IN_ESEC * 8

/-- EORZEA_SUN from eorzea_time.rs: one full game day of game-seconds. -/
def EORZEA_SUN : Nat := SUN_IN_ESEC

/-- EorzeaTime::new from eorzea_time.rs: validates the calendar components with
the source's sequential guards and on success builds the absolute counter.
The Err(ValueOutOfBounds) result is modelled as none. -/
def EorzeaTime.new (year moon sun bell minute second : Nat) : Option Nat :=
  if year = 0 then none
  else if moon = 0 ∨ 12 < moon then none
  else if sun = 0 ∨ 32 < sun then none
  else if 24 ≤ bell then none
  else if 60 ≤ minute then none
  else if 60 ≤ second then none
  else some ((year - 1) * YEAR_IN_ESEC + (moon - 1) * MOON_IN_ESEC
      + (sun - 1) * SUN_IN_ESEC + bell * BELL_IN_ESEC
      + minute * MINUTE_IN_ESEC + second)

/-- EorzeaTime::from_time from eorzea_time.rs: real seconds since the Unix
epoch times 3600/175, rounded to the nearest game-second.  The source
computes (secs as f64 * (3600.0/175.0)).round(); here that f64 arithmetic is
idealized as the exact rational floor(secs*3600/175 + 1/2), namely
(secs*7200 + 175) / 350 in integer division (f64 round() rounds half away
from zero).  The idealization is not bit-exact: the conversion of secs to
f64 collapses distinct inputs above 2^53, and the compiled f64 quotient
3600.0/175.0 slightly exceeds the rational 144/7, so exact half-integer
products can round differently.  No theorem below about the weather model
is sensitive to this: the score only consumes the inverse conversion
through the divisors 175 and 4200. -/
def EorzeaTime.from_time (unix_secs : Nat) : Nat :=
  (unix_secs * 7200 + 175) / 350

/-- EorzeaTime::to_system_time from eorzea_time.rs: the inverse scaling,
(timestamp as f64 / (3600.0/175.0)).round() as seconds since the Unix
epoch, idealized as the exact rational floor(timestamp*175/3600 + 1/2) =
(timestamp*350 + 3600) / 7200.  The idealization differs from the program
at exact half-integer quotients (timestamps congruent to 72 mod 144, where
the compiled f64 divisor exceeding 144/7 makes the program round down: the
program maps timestamp 72 to 3, this model to 4) and at magnitudes beyond
2^53.  Such a deviation is always minus one real second at unix values
congruent to 4 mod 7; since 175 and 4200 are multiples of 7, the weather
score's bell and day quotients, and hence every weather result below, are
unaffected at any realistic instant. -/
def EorzeaTime.to_system_time (timestamp : Nat) : Nat :=
  (timestamp * 350 + 3600) / 7200

/-- EorzeaTimeSpan from eorzea_time.rs: a start instant plus a duration,
both counters of game-seconds. -/
structure EorzeaTimeSpan where
  start : Nat
  duration : Nat
deriving DecidableEq, Repr

/-- EorzeaTimeSpan::end from eorzea_time.rs (end is a reserved word in Lean,
hence the name endt): start + duration. -/
def EorzeaTimeSpan.endt (s : EorzeaTimeSpan) : Nat :=
  s.start + s.duration

/-- EorzeaTimeSpan::new_start_end from eorzea_time.rs: builds the span from
its two endpoints via end.duration_since(start), which fails (modelled as
none, the source's EorzeaDurationError) when the start exceeds the end. -/
def EorzeaTimeSpan.new_start_end (start endt : Nat) : Option EorzeaTimeSpan :=
  if endt < start then none else some ⟨start, endt - start⟩

/-- EorzeaTimeSpan::overlap from eorzea_time.rs: the span from the larger
start to the smaller end, through new_start_end. -/
def EorzeaTimeSpan.overlap (a b : EorzeaTimeSpan) : Option EorzeaTimeSpan :=
  EorzeaTimeSpan.new_start_end (max a.start b.start) (min a.endt b.endt)

/-- Weather from weather.rs. -/
inductive Weather where
  | Unknown
  | Sunny
  | Clouds
  | ClearSkies
  | FairSkies
  | Fog
  | Wind
deriving DecidableEq, Repr

/-- eorzea_weather_score from weather.rs.  The instant is converted to real
Unix seconds with to_system_time; all intermediate values are u64 except
calc_base, step_1 and step_2, which are u32 (hence the explicit mod 2^32;
the left shift by 11 wraps, the xor and right shift cannot overflow).
The final cast to u8 is lossless because the result is below max_score,
a u8, in the source.  max_score = 0 makes the source panic on the final
remainder; that is modelled as none.  The SystemTimeError branch of the
source is unreachable here since the model's times never precede the epoch. -/
def eorzea_weather_score (time : Nat) (max_score : Nat) : Option Nat :=
  if max_score = 0 then none
  else
    let unix_time_sec := EorzeaTime.to_system_time time
    let bell := unix_time_sec / 175
    let inc := (bell + 8 - bell % 8) % 24
    let total_days := unix_time_sec / 4200
    let calc_base := (total_days * 100 + inc) % 2 ^ 32
    let step_1 := Nat.xor ((calc_base * 2 ^ 11) % 2 ^ 32) calc_base
    let step_2 := Nat.xor (step_1 / 2 ^ 8) step_1
    some (step_2 % max_score)

/-- time_to_eorzea_weather_score from lib.rs: the same bit-mixing hash taking
the real Unix seconds directly, with the fixed modulus 100. -/
def time_to_eorzea_weather_score (unix_time_sec : Nat) : Nat :=
  let bell := unix_time_sec / 175
  let inc := (bell + 8 - bell % 8) % 24
  let total_days := unix_time_sec / 4200
  let calc_base := (total_days * 100 + inc) % 2 ^ 32
  let step_1 := Nat.xor ((calc_base * 2 ^ 11) % 2 ^ 32) calc_base
  let step_2 := Nat.xor (step_1 / 2 ^ 8) step_1
  step_2 % 100

/-- The maximum threshold of a weather-rate table, as computed inline in
WeatherForecast::weather_at: iter().map(fst).max().unwrap_or(1). -/
def WeatherForecast.max_rate (weather_rates : List (Nat × Weather)) : Nat :=
  ((weather_rates.map Prod.fst).max?).getD 1

/-- WeatherForecast::weather_at from weather.rs: score the instant with the
table's maximum threshold as modulus, then return the first entry in list
order whose threshold strictly exceeds the score, defaulting to
Weather.Unknown.  none models the source's panic when the modulus is zero. -/
def WeatherForecast.weather_at (weather_rates : List (Nat × Weather))
    (time : Nat) : Option Weather :=
  match eorzea_weather_score time (WeatherForecast.max_rate weather_rates) with
  | none => none
  | some weather_score =>
      some ((((weather_rates.filter (fun p => weather_score < p.1)).map
        Prod.snd).head?).getD Weather.Unknown)

/-- The scanning loop of WeatherForecast::find_pattern: step one weather
period at a time, tracking the previous period's weather, for at most the
given number of iterations. -/
def WeatherForecast.find_pattern_loop (weather_rates : List (Nat × Weather))
    (previous_weather_set current_weather_set : List Weather) :
    Nat → Weather → Nat → Option Nat
  | 0, _, _ => none
  | fuel + 1, prev_weather, time =>
      let t := time + EORZEA_WEATHER_PERIOD
      match WeatherForecast.weather_at weather_rates t with
      | none => none
      | some current_weather =>
          if prev_weather ∈ previous_weather_set
              ∧ current_weather ∈ current_weather_set then some t
          else
            WeatherForecast.find_pattern_loop weather_rates
              previous_weather_set current_weather_set fuel current_weather t

/-- WeatherForecast::find_pattern from weather.rs: start one weather period
before the requested instant (saturating at zero, as EorzeaTime subtraction
does in the source), then scan forward up to limit periods for a transition
whose previous weather lies in the first set and current weather in the
second. -/
def WeatherForecast.find_pattern (weather_rates : List (Nat × Weather))
    (start : Nat) (previous_weather_set current_weather_set : List Weather)
    (limit : Nat) : Option Nat :=
  let time := start - EORZEA_WEATHER_PERIOD
  match WeatherForecast.weather_at weather_rates time with
  | none => none
  | some prev_weather =>
      WeatherForecast.find_pattern_loop weather_rates previous_weather_set
        current_weather_set limit prev_weather time

/-- Fish from fish.rs, restricted to the fields the prediction algorithm
reads: the daily window offsets, the two weather sets, and the
location.region.weather rate table reached through the catalog graph. -/
structure Fish where
  window_start : Nat
  window_end : Nat
  previous_weather_set : List Weather
  weather_set : List Weather
  rates : List (Nat × Weather)
deriving Repr

/-- Fish::new from fish.rs, restricted to the prediction fields: the window
offsets are reduced modulo one Eorzean day. -/
def Fish.new (window_start window_end : Nat)
    (previous_weather_set weather_set : List Weather)
    (rates : List (Nat × Weather)) : Fish :=
  ⟨window_start % EORZEA_SUN, window_end % EORZEA_SUN,
    previous_weather_set, weather_set, rates⟩

/-- Fish::window_on_day from fish.rs: round the reference time down to its
day, add the window offsets, wrap the end by one day when it does not exceed
the start, and build the span.  The source unwraps the new_start_end result
(a panic when it fails); none models that panic. -/
def Fish.window_on_day (f : Fish) (etime : Nat) : Option EorzeaTimeSpan :=
  let day := etime - etime % EORZEA_SUN
  let start := day + f.window_start
  let end0 := day + f.window_end
  let end1 := if end0 ≤ start then end0 + EORZEA_SUN else end0
  EorzeaTimeSpan.new_start_end start end1

/-- The while loop of Fish::next_window, with the cursor time and the
remaining limit explicit.  Each iteration asks find_pattern for the next
matching weather instant with the current remaining limit (a failure is
terminal), intersects that weather period with the day's window, and accepts
the intersection only if start is at most the window's end (when ongoing
windows count) or the window's start (otherwise) and the duration is
strictly positive; otherwise the cursor advances one weather period and the
limit decreases.  none also models the source's panic inside window_on_day,
unreachable for day-reduced window offsets. -/
def Fish.next_window_loop (f : Fish) (start : Nat) (include_ongoing : Bool) :
    Nat → Nat → Option EorzeaTimeSpan
  | _, 0 => none
  | time, limit + 1 =>
      match WeatherForecast.find_pattern f.rates time f.previous_weather_set
          f.weather_set (limit + 1) with
      | none => none
      | some next_weather =>
          let weather_span : EorzeaTimeSpan :=
            ⟨next_weather, EORZEA_WEATHER_PERIOD⟩
          match f.window_on_day time with
          | none => none
          | some day_window =>
              match day_window.overlap weather_span with
              | some window =>
                  let min_window :=
                    if include_ongoing then window.endt else window.start
                  if start ≤ min_window ∧ 0 < window.duration then some window
                  else
                    Fish.next_window_loop f start include_ongoing
                      (time + EORZEA_WEATHER_PERIOD) limit
              | none =>
                  Fish.next_window_loop f start include_ongoing
                    (time + EORZEA_WEATHER_PERIOD) limit

/-- Fish::next_window from fish.rs: run the search loop from the requested
start with the requested iteration budget. -/
def Fish.next_window (f : Fish) (start : Nat) (include_ongoing : Bool)
    (limit : Nat) : Option EorzeaTimeSpan :=
  Fish.next_window_loop f start include_ongoing start limit

/-- The two-entry rate table used by the repository's own tests:
50 percent Clouds then 100 percent Sunny. -/
def rates2 : List (Nat × Weather) :=
  [(50, Weather.Clouds), (100, Weather.Sunny)]

/-- A rate table whose single entry carries the Unknown weather variant. -/
def rates_u : List (Nat × Weather) :=
  [(100, Weather.Unknown)]

/-- A concrete fish over the test rate table: daily window from 01:00 to
13:53:20, any weather transition allowed. -/
def fish1 : Fish :=
  Fish.new 3600 50000 [Weather.Clouds, Weather.Sunny]
    [Weather.Clouds, Weather.Sunny] rates2

/-- A concrete fish whose daily window crosses midnight: 23:30 to 01:00. -/
def fish2 : Fish :=
  Fish.new 84600 3600 [] [] []

/-- The head of a filtered list: any member satisfying the predicate
guarantees the filter is nonempty, and its head is a member of the original
list satisfying the predicate. -/
theorem filter_head_of_mem {α : Type} (p : α → Bool) (l : List α)
    (h : ∃ x ∈ l, p x) :
    ∃ y ∈ l, p y = true ∧ (l.filter p).head? = some y := by
  induction l with
  | nil => simp at h
  | cons a l ih =>
      by_cases hpa : p a = true
      · exact ⟨a, List.mem_cons_self a l, hpa, by simp [List.filter_cons, hpa]⟩
      · obtain ⟨x, hx, hpx⟩ := h
        have hxl : x ∈ l := by
          rcases List.mem_cons.mp hx with rfl | h1
          · exact absurd hpx hpa
          · exact h1
        obtain ⟨y, hyl, hpy, hh⟩ := ih ⟨x, hxl, hpx⟩
        exact ⟨y, List.mem_cons_of_mem a hyl, hpy,
          by simp [List.filter_cons, hpa, hh]⟩

/-- The maximum rate of a nonempty table is the threshold of one of its
entries. -/
theorem max_rate_mem (weather_rates : List (Nat × Weather))
    (h : weather_rates ≠ []) :
    ∃ w, (WeatherForecast.max_rate weather_rates, w) ∈ weather_rates := by
  unfold WeatherForecast.max_rate
  cases hm : (weather_rates.map Prod.fst).max? with
  | none =>
      exact absurd (List.map_eq_nil_iff.mp (List.max?_eq_none_iff.mp hm)) h
  | some m =>
      have hmem : m ∈ weather_rates.map Prod.fst :=
        List.max?_mem (fun _ _ => max_choice _ _) hm
      obtain ⟨⟨n, w⟩, hp, hfst⟩ := List.mem_map.mp hmem
      refine ⟨w, ?_⟩
      simpa [Option.getD, ← hfst] using hp

/-- Claim C3: the weather score with modulus 100 is 56 at the real epoch,
76 at epoch plus 100000 seconds, and 94 at epoch plus 1741463853 seconds. -/
theorem c3_score_examples :
    time_to_eorzea_weather_score 0 = 56 ∧
    time_to_eorzea_weather_score 100000 = 76 ∧
    time_to_eorzea_weather_score 1741463853 = 94 := by
  refine ⟨by decide, by decide, by decide⟩

/-- Claim C6: construction of an EorzeaTime from calendar components succeeds
exactly when every component is within bounds, producing the absolute counter
from the fixed unit sizes, and fails with the out-of-bounds error (none)
whenever any bound is violated. -/
theorem c6_construct (year moon sun bell minute second : Nat) :
    (1 ≤ year ∧ 1 ≤ moon ∧ moon ≤ 12 ∧ 1 ≤ sun ∧ sun ≤ 32 ∧ bell < 24 ∧
        minute < 60 ∧ second < 60 →
      EorzeaTime.new year moon sun bell minute second =
        some ((year - 1) * YEAR_IN_ESEC + (moon - 1) * MOON_IN_ESEC
          + (sun - 1) * SUN_IN_ESEC + bell * BELL_IN_ESEC
          + minute * MINUTE_IN_ESEC + second)) ∧
    (¬ (1 ≤ year ∧ 1 ≤ moon ∧ moon ≤ 12 ∧ 1 ≤ sun ∧ sun ≤ 32 ∧ bell < 24 ∧
        minute < 60 ∧ second < 60) →
      EorzeaTime.new year moon sun bell minute second = none) := by
  constructor <;> intro h <;> unfold EorzeaTime.new
  · rw [if_neg (by omega), if_neg (by omega), if_neg (by omega),
      if_neg (by omega), if_neg (by omega), if_neg (by omega)]
  · repeat' split
    all_goals first | rfl | (exfalso; omega)

/-- Witness for claim C6: the second sun of the calendar maps to one day's
counter, and a thirteenth moon is rejected. -/
theorem c6_witness :
    EorzeaTime.new 1 1 2 0 0 0 =
      some ((1 - 1) * YEAR_IN_ESEC + (1 - 1) * MOON_IN_ESEC
        + (2 - 1) * SUN_IN_ESEC + 0 * BELL_IN_ESEC + 0 * MINUTE_IN_ESEC + 0) ∧
    EorzeaTime.new 1 13 1 0 0 0 = none :=
  ⟨(c6_construct 1 1 2 0 0 0).1 (by decide),
    (c6_construct 1 13 1 0 0 0).2 (by decide)⟩

/-- Claim C7: span overlap is commutative, and the two sides either both
fail or both produce the span from the larger start to the smaller end. -/
theorem c7_overlap_comm (a b : EorzeaTimeSpan) :
    a.overlap b = b.overlap a ∧
    ((a.overlap b = none ∧ b.overlap a = none) ∨
      ∃ s, a.overlap b = some s ∧ b.overlap a = some s ∧
        s.start = max a.start b.start ∧ s.endt = min a.endt b.endt) := by
  have hcomm : a.overlap b = b.overlap a := by
    unfold EorzeaTimeSpan.overlap
    rw [Nat.max_comm, Nat.min_comm]
  refine ⟨hcomm, ?_⟩
  by_cases h : min a.endt b.endt < max a.start b.start
  · left
    have h1 : a.overlap b = none := by
      unfold EorzeaTimeSpan.overlap EorzeaTimeSpan.new_start_end
      rw [if_pos h]
    exact ⟨h1, hcomm ▸ h1⟩
  · right
    have h1 : a.overlap b =
        some ⟨max a.start b.start,
          min a.endt b.endt - max a.start b.start⟩ := by
      unfold EorzeaTimeSpan.overlap EorzeaTimeSpan.new_start_end
      rw [if_neg h]
    refine ⟨_, h1, hcomm ▸ h1, rfl, ?_⟩
    simp only [EorzeaTimeSpan.endt] at h ⊢
    omega

/-- window_on_day for a fish whose window offsets are reduced to day
fractions: the span construction succeeds, the start is the day boundary
plus the start offset, and the end is the day boundary plus the end offset,
pushed one day later exactly when the end offset does not exceed the start
offset. -/
theorem window_on_day_spec (f : Fish) (hws : f.window_start < EORZEA_SUN)
    (t : Nat) :
    ∃ s, f.window_on_day t = some s ∧
      s.start = (t - t % EORZEA_SUN) + f.window_start ∧
      s.endt = (if f.window_end ≤ f.window_start
        then (t - t % EORZEA_SUN) + f.window_end + EORZEA_SUN
        else (t - t % EORZEA_SUN) + f.window_end) := by
  unfold Fish.window_on_day EorzeaTimeSpan.new_start_end
  dsimp only
  by_cases hc : f.window_end ≤ f.window_start
  · rw [if_pos hc]
    rw [if_pos (by omega :
      (t - t % EORZEA_SUN) + f.window_end ≤ (t - t % EORZEA_SUN) + f.window_start)]
    rw [if_neg (by omega :
      ¬ (t - t % EORZEA_SUN) + f.window_end + EORZEA_SUN
        < (t - t % EORZEA_SUN) + f.window_start)]
    refine ⟨_, rfl, rfl, ?_⟩
    simp only [EorzeaTimeSpan.endt]
    omega
  · rw [if_neg hc]
    rw [if_neg (by omega :
      ¬ (t - t % EORZEA_SUN) + f.window_end ≤ (t - t % EORZEA_SUN) + f.window_start)]
    rw [if_neg (by omega :
      ¬ (t - t % EORZEA_SUN) + f.window_end
        < (t - t % EORZEA_SUN) + f.window_start)]
    refine ⟨_, rfl, rfl, ?_⟩
    simp only [EorzeaTimeSpan.endt]
    omega

/-- Claim C4: for a fish with day-reduced window offsets and any reference
time, window_on_day rounds the reference time down to its day boundary,
sets start to dayStart plus window_start and end to dayStart plus
window_end, pushes the end one full day later exactly when the naive end
does not exceed the start (in particular whenever window_end is not greater
than window_start), and always returns a valid span. -/
theorem c4_window_on_day (f : Fish) (hws : f.window_start < EORZEA_SUN)
    (_hwe : f.window_end < EORZEA_SUN) (t : Nat) :
    ∃ s, f.window_on_day t = some s ∧
      s.start = (t - t % EORZEA_SUN) + f.window_start ∧
      s.endt = (if f.window_end ≤ f.window_start
        then (t - t % EORZEA_SUN) + f.window_end + EORZEA_SUN
        else (t - t % EORZEA_SUN) + f.window_end) :=
  window_on_day_spec f hws t

/-- Witness for claim C4: the midnight-crossing fish on day three. -/
theorem c4_witness :
    ∃ s, fish2.window_on_day 172900 = some s ∧
      s.start = (172900 - 172900 % EORZEA_SUN) + fish2.window_start ∧
      s.endt = (if fish2.window_end ≤ fish2.window_start
        then (172900 - 172900 % EORZEA_SUN) + fish2.window_end + EORZEA_SUN
        else (172900 - 172900 % EORZEA_SUN) + fish2.window_end) :=
  c4_window_on_day fish2 (by decide) (by decide) 172900

/-- Claim C9: for every fish constructed through Fish.new, which reduces
both window offsets modulo one Eorzean day, window_on_day never hits the
failing span-construction branch: it returns a span of strictly positive
duration of at most one full day. -/
theorem c9_window_on_day_total (ws0 we0 : Nat)
    (prev cur : List Weather) (rates : List (Nat × Weather)) (t : Nat) :
    ∃ s, (Fish.new ws0 we0 prev cur rates).window_on_day t = some s ∧
      0 < s.duration ∧ s.duration ≤ EORZEA_SUN := by
  have hpos : 0 < EORZEA_SUN := by decide
  have hws : (Fish.new ws0 we0 prev cur rates).window_start < EORZEA_SUN :=
    Nat.mod_lt _ hpos
  have hwe : (Fish.new ws0 we0 prev cur rates).window_end < EORZEA_SUN :=
    Nat.mod_lt _ hpos
  obtain ⟨s, hs, h1, h2⟩ :=
    window_on_day_spec (Fish.new ws0 we0 prev cur rates) hws t
  refine ⟨s, hs, ?_, ?_⟩ <;>
    · have h3 : s.start + s.duration = s.endt := rfl
      by_cases hc : (Fish.new ws0 we0 prev cur rates).window_end
          ≤ (Fish.new ws0 we0 prev cur rates).window_start
      · rw [if_pos hc] at h2
        omega
      · rw [if_neg hc] at h2
        omega

/-- Soundness of the next_window search loop: any span it returns was
accepted by the loop's guard, so the search start is at most the span's end
(when ongoing windows count) or the span's start (otherwise), and the span's
duration is strictly positive. -/
theorem next_window_loop_sound (f : Fish) (start : Nat) (io : Bool) :
    ∀ (limit time : Nat) (w : EorzeaTimeSpan),
      Fish.next_window_loop f start io time limit = some w →
      start ≤ (if io then w.endt else w.start) ∧ 0 < w.duration := by
  intro limit
  induction limit with
  | zero =>
      intro time w h
      exact absurd h (by simp [Fish.next_window_loop])
  | succ n ih =>
      intro time w h
      unfold Fish.next_window_loop at h
      dsimp only at h
      split at h
      · exact absurd h (by simp)
      · split at h
        · exact absurd h (by simp)
        · split at h
          · split at h <;> split at h
            · obtain rfl : _ = w := Option.some.inj h
              simp_all
            · exact ih _ _ h
            · obtain rfl : _ = w := Option.some.inj h
              simp_all
            · exact ih _ _ h
          · exact ih _ _ h

/-- Claim C1: a span returned by next_window with includeOngoing false never
starts before the search start; with includeOngoing true its end is at or
after the search start. -/
theorem c1_next_window_search_start (f : Fish) (start : Nat) (io : Bool)
    (limit : Nat) (w : EorzeaTimeSpan)
    (h : f.next_window start io limit = some w) :
    (io = false → start ≤ w.start) ∧ (io = true → start ≤ w.endt) := by
  have hb := (next_window_loop_sound f start io limit start w h).1
  constructor <;> intro hio <;> subst hio <;> simpa using hb

/-- Witness for claim C1: a concrete search over the test rate table that
returns the span from 40000 to 50000. -/
theorem c1_witness :
    (false = false → (40000 : Nat) ≤ (40000 : Nat)) ∧
    (false = true → (40000 : Nat) ≤ (50000 : Nat)) :=
  c1_next_window_search_start fish1 40000 false 6 ⟨40000, 10000⟩ (by decide)

/-- Claim C5: every span returned by next_window has strictly positive
duration; a zero-duration intersection is never returned. -/
theorem c5_next_window_positive_duration (f : Fish) (start : Nat) (io : Bool)
    (limit : Nat) (w : EorzeaTimeSpan)
    (h : f.next_window start io limit = some w) :
    0 < w.duration :=
  (next_window_loop_sound f start io limit start w h).2

/-- Witness for claim C5: a concrete ongoing-window search over the test
rate table that returns the span from 28800 to 50000. -/
theorem c5_witness : 0 < (21200 : Nat) :=
  c5_next_window_positive_duration fish1 28800 true 6 ⟨28800, 21200⟩
    (by decide)

/-- Counterexample to claim C2: at the instant 576000 (game-seconds), whose
real conversion is exactly 28000 seconds, the computed score is exactly 50 —
at most 50 — yet weather_at returns Sunny, not Clouds, because the lookup
requires a threshold strictly greater than the score. -/
theorem c2_counterexample :
    eorzea_weather_score 576000 (WeatherForecast.max_rate rates2) = some 50 ∧
    WeatherForecast.weather_at rates2 576000 = some Weather.Sunny ∧
    Weather.Sunny ≠ Weather.Clouds :=
  ⟨by decide, by decide, by decide⟩

/-- Claim C2 as amended: with rate table [(50, Clouds), (100, Sunny)],
weather_at returns Clouds exactly when the computed score is strictly below
50 and Sunny otherwise, and the score is always strictly below 100, so the
Unknown fallback (which would need a score at or above every threshold)
never fires. -/
theorem c2_weather_boundary (t : Nat) :
    WeatherForecast.weather_at rates2 t =
      some (if (eorzea_weather_score t 100).getD 0 < 50 then Weather.Clouds
        else Weather.Sunny) ∧
    (eorzea_weather_score t 100).getD 0 < 100 := by
  have hm : WeatherForecast.max_rate rates2 = 100 := by decide
  obtain ⟨sc, hsc, hlt⟩ :
      ∃ sc, eorzea_weather_score t 100 = some sc ∧ sc < 100 := by
    unfold eorzea_weather_score
    rw [if_neg (by norm_num)]
    exact ⟨_, rfl, Nat.mod_lt _ (by norm_num)⟩
  refine ⟨?_, by simp [hsc, hlt]⟩
  unfold WeatherForecast.weather_at
  rw [hm, hsc]
  dsimp only
  simp only [rates2, List.filter_cons, List.filter_nil]
  by_cases h50 : sc < 50
  · simp [h50, hsc]
  · simp [h50, hlt, hsc]

/-- Counterexample to claim C10: a nonempty rate table with positive maximum
threshold whose single entry carries the Unknown weather variant makes
weather_at return Unknown. -/
theorem c10_counterexample :
    rates_u ≠ [] ∧ 0 < WeatherForecast.max_rate rates_u ∧
    WeatherForecast.weather_at rates_u 0 = some Weather.Unknown :=
  ⟨by decide, by decide, by decide⟩

/-- Claim C10 as amended: for every forecast with a nonempty rate table of
positive maximum threshold and every instant, the computed score is strictly
below the maximum threshold, so some table entry matches and weather_at
returns that entry's weather — the Unknown fallback for an empty match is
never used (the result can still be the Unknown variant only when a table
entry itself carries it). -/
theorem c10_table_entry (weather_rates : List (Nat × Weather))
    (hne : weather_rates ≠ [])
    (hpos : 0 < WeatherForecast.max_rate weather_rates) (t : Nat) :
    ∃ sc, eorzea_weather_score t (WeatherForecast.max_rate weather_rates)
        = some sc ∧
      sc < WeatherForecast.max_rate weather_rates ∧
      ∃ n w, (n, w) ∈ weather_rates ∧ sc < n ∧
        WeatherForecast.weather_at weather_rates t = some w := by
  obtain ⟨sc, hsc, hlt⟩ :
      ∃ sc, eorzea_weather_score t (WeatherForecast.max_rate weather_rates)
          = some sc ∧ sc < WeatherForecast.max_rate weather_rates := by
    unfold eorzea_weather_score
    rw [if_neg (by omega)]
    exact ⟨_, rfl, Nat.mod_lt _ hpos⟩
  obtain ⟨w0, hw0⟩ := max_rate_mem weather_rates hne
  have hx : ∃ x ∈ weather_rates, (fun p => decide (sc < p.1)) x =
      true := ⟨(WeatherForecast.max_rate weather_rates, w0), hw0, by simp [hlt]⟩
  obtain ⟨y, hyl, hpy, hh⟩ :=
    filter_head_of_mem (fun p => decide (sc < p.1)) weather_rates hx
  refine ⟨sc, hsc, hlt, y.1, y.2, by simpa using hyl, by simpa using hpy, ?_⟩
  unfold WeatherForecast.weather_at
  rw [hsc]
  dsimp only
  rw [List.head?_map, hh]
  rfl

/-- Witness for claim C10: the test rate table at the epoch instant. -/
theorem c10_witness :
    ∃ sc, eorzea_weather_score 0 (WeatherForecast.max_rate rates2)
        = some sc ∧
      sc < WeatherForecast.max_rate rates2 ∧
      ∃ n w, (n, w) ∈ rates2 ∧ sc < n ∧
        WeatherForecast.weather_at rates2 0 = some w :=
  c10_table_entry rates2 (by decide) (by decide) 0

end FFF
